import Mathlib

/-!
Verification development for the classification-and-dispatch engine of the
`backend/app` service (routers `ai_classifier.py`, `qwen_model.py`,
`cerebras_qwen.py`, `analyze.py`, `tasks.py`).

Python strings are embedded as `List Char`; the network is embedded as
explicit environment records: every fallible remote call is a field of an
environment structure returning either its observable outcome or a marker
for a raised exception (`Except Unit _` / dedicated outcome inductives).
All definitions mirror the Python source line by line; doc comments name
the file and function each definition embeds.
-/

/-- Python strings, embedded as lists of characters. -/
abbrev Str := List Char

/-- Python `s.lower()` (ASCII case folding suffices for every string the
program manipulates). -/
def lowerStr (s : Str) : Str := s.map Char.toLower

/-- Python `s.replace(c, "")` for a single-character pattern `c`:
removes every occurrence of `c`. -/
def removeChar (c : Char) : Str → Str
  | [] => []
  | x :: xs => if x = c then removeChar c xs else x :: removeChar c xs

/-- Python `s.startswith(p)`. -/
def startsWith : Str → Str → Bool
  | [], _ => true
  | _ :: _, [] => false
  | a :: as, b :: bs => a == b && startsWith as bs

/-- Python `needle in hay` (contiguous-substring test). -/
def containsSub (needle : Str) : Str → Bool
  | [] => decide (needle = [])
  | c :: rest => startsWith needle (c :: rest) || containsSub needle rest

/-- Python `any(k in s for k in kws)`. -/
def anyKeyword (kws : List Str) (s : Str) : Bool := kws.any (fun k => containsSub k s)

/-! ## Response normalizer — `qwen_model.py`, `parse_task_from_response`
(lines 83-98; `cerebras_qwen.py` lines 453-462 contain a verbatim copy of
the same function, so a single embedding covers both). -/

/-- `valid_tasks` list of `parse_task_from_response`
(`qwen_model.py` line 85). -/
def valid_tasks : List Str :=
  List.map String.toList
    ["OCR", "Image Captioning", "Visual QA", "Image Classification",
     "Object Detection", "Style Transfer", "Medical Diagnosis", "Other"]

/-- The chained `.replace(".", "").replace(",", "").replace("?", "").replace("!", "")`
of `qwen_model.py` line 88 (applied left to right). -/
def stripPunct (s : Str) : Str :=
  removeChar '!' (removeChar '?' (removeChar ',' (removeChar '.' s)))

/-- `parse_task_from_response` (`qwen_model.py` lines 83-98): lower-case,
drop the four punctuation characters, return the first valid task whose
lower-cased form occurs as a substring, else "Other". -/
def parse_task_from_response (response : Str) : Str :=
  let r := stripPunct (lowerStr response)
  match valid_tasks.find? (fun t => containsSub (lowerStr t) r) with
  | some t => t
  | none => "Other".toList

/-- Spec-side characteristic set: the punctuation characters the spec says
the normalizer strips. -/
def is_stripped_punct (c : Char) : Bool := c == '.' || c == ',' || c == '?' || c == '!'

/-- Modelled from the spec's words for the refinement claim about the
normalizer (spec §4.1): "strip the punctuation characters `.`, `,`, `?`,
`!` and lower-case the text; then, in the fixed vocabulary order, test
whether the label's display string (lower-cased) occurs as a substring;
return the first match; if none match, return Other." -/
def normalize_spec (response : Str) : Str :=
  let cleaned := (lowerStr response).filter (fun c => !is_stripped_punct c)
  match valid_tasks.find? (fun t => containsSub (lowerStr t) cleaned) with
  | some t => t
  | none => "Other".toList

/-! ## Local keyword classifier — `ai_classifier.py`, `mock_classify_task`
(lines 80-131). -/

/-- `medical_keywords` (`ai_classifier.py` line 93). -/
def medical_keywords : List Str :=
  List.map String.toList
    ["medical", "diagnosis", "health", "doctor", "patient", "disease",
     "condition", "symptoms", "diagnose"]

/-- `ocr_keywords` (`ai_classifier.py` line 98). -/
def ocr_keywords : List Str :=
  List.map String.toList
    ["text", "read", "extract", "ocr", "words", "letters", "characters", "document"]

/-- `classification_keywords` (`ai_classifier.py` line 103). -/
def classification_keywords : List Str :=
  List.map String.toList
    ["classify", "category", "type", "kind", "sort", "group", "label"]

/-- `object_keywords` (`ai_classifier.py` line 108). -/
def object_keywords : List Str :=
  List.map String.toList
    ["objects", "items", "things", "find", "locate", "bounding box",
     "coordinates", "detect"]

/-- `style_keywords` (`ai_classifier.py` line 113). -/
def style_keywords : List Str :=
  List.map String.toList
    ["style", "art", "transform", "convert", "change style", "make it look like"]

/-- `caption_keywords` (`ai_classifier.py` line 118). -/
def caption_keywords : List Str :=
  List.map String.toList
    ["describe", "caption", "what is this", "what do you see", "scene",
     "picture", "image"]

/-- `vqa_keywords` (`ai_classifier.py` line 123). -/
def vqa_keywords : List Str :=
  List.map String.toList
    ["what color", "how many", "count", "identify", "recognize"]

/-- `mock_classify_task` (`ai_classifier.py` lines 80-131): the if/elif
chain over the keyword groups, then the generic "what"/"where"/"how"
rule, then "Other". -/
def mock_classify_task (question : Str) : Str :=
  let ql := lowerStr question
  if anyKeyword medical_keywords ql then "Medical Diagnosis".toList
  else if anyKeyword ocr_keywords ql then "OCR".toList
  else if anyKeyword classification_keywords ql then "Image Classification".toList
  else if anyKeyword object_keywords ql then "Object Detection".toList
  else if anyKeyword style_keywords ql then "Style Transfer".toList
  else if anyKeyword caption_keywords ql then "Image Captioning".toList
  else if anyKeyword vqa_keywords ql then "Visual QA".toList
  else if startsWith "what".toList ql || startsWith "where".toList ql
          || startsWith "how".toList ql then "Visual QA".toList
  else "Other".toList

/-! ## Endpoint prober — `cerebras_qwen.py`, `CerebrasQwenClient`
(lines 45-63).  The network is embedded as `probe : Str → Option Nat`:
`probe url = some code` is an HTTP `HEAD` answered with status `code`,
`probe url = none` is a probe that raised (connection fault / timeout). -/

/-- `CerebrasQwenClient._test_endpoint_connectivity` (lines 45-51):
status `< 500` is reachable, an exception (`none`) is unreachable. -/
def test_endpoint_connectivity (probe : Str → Option Nat) (url : Str) : Bool :=
  match probe url with
  | some code => decide (code < 500)
  | none => false

/-- `CerebrasQwenClient._find_working_endpoint` (lines 53-63): the `for`
loop over the candidate list, returning the first reachable URL. -/
def find_working_endpoint (probe : Str → Option Nat) : List Str → Option Str
  | [] => none
  | u :: rest =>
    if test_endpoint_connectivity probe u then some u
    else find_working_endpoint probe rest

/-- Instrumented variant of the same `for` loop recording, in order, every
URL the loop actually probes (the loop body issues exactly one probe per
iteration and returns on the first reachable URL). -/
def probe_trace (probe : Str → Option Nat) : List Str → List Str
  | [] => []
  | u :: rest =>
    if test_endpoint_connectivity probe u then [u]
    else u :: probe_trace probe rest

/-! ## Cerebras classifier tier — `cerebras_qwen.py`. -/

/-- `fallback_urls` built by `get_cerebras_config` (lines 160-167); the
call path under verification always goes through `get_cerebras_config`,
so this five-element list (plus the primary URL prepended at the call
site) is the one that matters, not the four-element `__post_init__`
default that `get_cerebras_config` always overrides. -/
def fallback_urls : List Str :=
  List.map String.toList
    ["https://api.cerebras.com/v1/completions",
     "https://api.cerebras.com/chat/completions",
     "https://api.cerebras.com/completions",
     "https://cerebras-api.com/v1/chat/completions",
     "https://cerebras-api.com/v1/completions"]

/-- Keyword groups of `_fallback_response` (lines 233-247), in branch
order. -/
def fb_ocr_keywords : List Str := List.map String.toList ["text", "extract", "read", "ocr"]

/-- `_fallback_response` caption branch keywords (line 236). -/
def fb_caption_keywords : List Str := List.map String.toList ["describe", "caption", "what is this"]

/-- `_fallback_response` visual-QA branch keywords (line 238). -/
def fb_vqa_keywords : List Str :=
  List.map String.toList ["what color", "how many", "count", "visual qa", "vqa"]

/-- `_fallback_response` classification branch keywords (line 240). -/
def fb_classification_keywords : List Str := List.map String.toList ["classify", "category", "type"]

/-- `_fallback_response` detection branch keywords (line 242). -/
def fb_detection_keywords : List Str := List.map String.toList ["detect", "objects", "find"]

/-- `_fallback_response` style branch keywords (line 244). -/
def fb_style_keywords : List Str := List.map String.toList ["style", "art", "transfer"]

/-- `_fallback_response` medical branch keywords (line 246). -/
def fb_medical_keywords : List Str := List.map String.toList ["medical", "diagnosis", "health"]

/-- `_fallback_response` (`cerebras_qwen.py` lines 212-252): rule-based
fallback over the lower-cased prompt; the optional `error_msg` argument
only feeds debug printing and does not affect the result, so it is
dropped. -/
def fallback_response (prompt : Str) : Str :=
  let pl := lowerStr prompt
  if containsSub "classify".toList pl || containsSub "task".toList pl then
    if anyKeyword fb_ocr_keywords pl then "OCR".toList
    else if anyKeyword fb_caption_keywords pl then "Image Captioning".toList
    else if anyKeyword fb_vqa_keywords pl then "Visual QA".toList
    else if anyKeyword fb_classification_keywords pl then "Image Classification".toList
    else if anyKeyword fb_detection_keywords pl then "Object Detection".toList
    else if anyKeyword fb_style_keywords pl then "Style Transfer".toList
    else if anyKeyword fb_medical_keywords pl then "Medical Diagnosis".toList
    else "Other".toList
  else
    "Fallback response: I\x27m currently using a simplified response system. Your prompt was: \x27".toList
      ++ (prompt.take 100 ++ "...\x27".toList)

/-- Observable outcome of the one `session.post` a `generate` call issues
(lines 104-152): `exn` is a `requests` exception (connection error,
timeout, other request failure — all caught and turned into an error
dict); `resp status jsonOk text` is an HTTP answer, where `jsonOk = false`
means `response.json()` raised on a 200 answer (that exception is NOT
caught by the `requests.exceptions` handlers and propagates). -/
inductive PostOutcome where
  | exn : PostOutcome
  | resp (status : Nat) (jsonOk : Bool) (text : Str) : PostOutcome
deriving DecidableEq

/-- Environment of one classification request: the feature flag, the
primary Cerebras URL (`CEREBRAS_API_URL`, line 157), the probe behaviour,
the outcome of a Cerebras POST per (url, prompt), and the outcomes of the
two Qwen tiers per prompt.  `qwenApi p = Except.error ()` models
`call_qwen_model_api` raising (anything outside
`requests.exceptions.RequestException`, which it catches itself and turns
into an "Error: ..." string); `qwenLocal p = Except.error ()` models
`call_qwen_model_local` raising (e.g. the `qwen-model` weights are not
present). -/
structure ClassifierEnv where
  useCerebras : Bool
  cerebrasApiUrl : Str
  cerebrasProbe : Str → Option Nat
  cerebrasPost : Str → Str → PostOutcome
  qwenApi : Str → Except Unit Str
  qwenLocal : Str → Except Unit Str

/-- `call_cerebras_qwen` (`cerebras_qwen.py` lines 179-210) together with
the `generate` call it makes (lines 65-152): if no endpoint is found the
fallback answers; otherwise the POST outcome decides — a `requests`
exception or a non-200 status yields `success: False` and hence the
fallback, a 200 with good JSON yields the response text, and a 200 whose
body fails to parse raises out of `generate` (`Except.error`).
`_find_working_endpoint` is called twice on the same deterministic
environment (line 199 and line 79), so both calls agree. -/
def call_cerebras_qwen (env : ClassifierEnv) (prompt : Str) : Except Unit Str :=
  match find_working_endpoint env.cerebrasProbe (env.cerebrasApiUrl :: fallback_urls) with
  | none => Except.ok (fallback_response prompt)
  | some url =>
    match env.cerebrasPost url prompt with
    | PostOutcome.exn => Except.ok (fallback_response prompt)
    | PostOutcome.resp status jsonOk text =>
      if status = 200 then
        if jsonOk then Except.ok text else Except.error ()
      else Except.ok (fallback_response prompt)

/-- The fixed part of the classification prompt that precedes the
question (`ai_classifier.py` lines 10-26 and the identical literal in
`cerebras_qwen.py` lines 390-406). -/
def promptHead : Str :=
  "\nClassify the AI task based on the question and image description.\n\nQuestion: ".toList

/-- The fixed part of the prompt between question and image context. -/
def promptMid : Str := "\nImage: ".toList

/-- The fixed tail of the prompt after the image context (the option
list and the final "Task:"). -/
def promptTail : Str :=
  "\n\nRespond with exactly one of these options:\n- OCR\n- Image Captioning\n- Visual QA\n- Image Classification\n- Object Detection\n- Style Transfer\n- Medical Diagnosis\n- Other\n\nTask:".toList

/-- The formatted classification prompt
(`prompt_template.format(question=..., image_context=... or "No image
context provided")`, `ai_classifier.py` lines 55-58; `cerebras_qwen.py`
lines 390-406 build the identical string). -/
def mkPrompt (question : Str) (imageContext : Option Str) : Str :=
  promptHead ++ (question ++ (promptMid ++
    ((imageContext.getD "No image context provided".toList) ++ promptTail)))

/-- `classify_task_with_cerebras_qwen` (`cerebras_qwen.py` lines 379-451):
build the prompt, call the model, return the response verbatim when it
starts with "Fallback response:", otherwise parse it into the vocabulary.
(The local `response_lower` and the `task_mapping` dict at lines 416 and
425-449 are dead locals — never used — and are omitted.) -/
def classify_task_with_cerebras_qwen (env : ClassifierEnv) (question : Str)
    (imageContext : Option Str) : Except Unit Str :=
  match call_cerebras_qwen env (mkPrompt question imageContext) with
  | Except.error e => Except.error e
  | Except.ok response =>
    if startsWith "Fallback response:".toList response then Except.ok response
    else Except.ok (parse_task_from_response response)

/-! ## Classifier cascade — `ai_classifier.py`, `classify_task_with_qwen`
(lines 28-78). -/

/-- The `call_qwen_model_local` leg (lines 69-71): parse its answer, and
let the enclosing `except` turn any raised exception into "Other"
(lines 73-75). -/
def try_local_qwen (env : ClassifierEnv) (prompt : Str) : Str :=
  match env.qwenLocal prompt with
  | Except.ok r => parse_task_from_response r
  | Except.error _ => "Other".toList

/-- The `try ... except` ladder of `classify_task_with_qwen` lines 60-75:
try the Qwen API; on a raised exception or an "Error:"-prefixed answer
fall through to the local model leg. -/
def qwen_api_then_local (env : ClassifierEnv) (prompt : Str) : Str :=
  match env.qwenApi prompt with
  | Except.ok response =>
    if startsWith "Error:".toList response then try_local_qwen env prompt
    else parse_task_from_response response
  | Except.error _ => try_local_qwen env prompt

/-- `classify_task_with_qwen` (`ai_classifier.py` lines 28-78): when
`USE_CEREBRAS_QWEN` is set, try the Cerebras tier and return its value,
treating any exception there as tier failure (lines 45-52); otherwise run
the Qwen API / local-model ladder (lines 60-75). -/
def classify_task_with_qwen (env : ClassifierEnv) (question : Str)
    (imageContext : Option Str) : Str :=
  let viaCerebras : Option Str :=
    if env.useCerebras then
      match classify_task_with_cerebras_qwen env question imageContext with
      | Except.ok v => some v
      | Except.error _ => none
    else none
  match viaCerebras with
  | some v => v
  | none => qwen_api_then_local env (mkPrompt question imageContext)

/-! ## Dispatch table — `analyze.py`, `handle_task` (lines 118-177), and
the handler endpoints of `tasks.py` it routes to. -/

/-- The `task_mapping` dict of `handle_task` (`analyze.py` lines 133-142)
with its `.get(task, "other")` default (line 146). -/
def task_mapping (task : Str) : Str :=
  if task = "OCR".toList then "pytesseract".toList
  else if task = "Image Captioning".toList then "caption".toList
  else if task = "Visual QA".toList then "vqa".toList
  else if task = "Image Classification".toList then "other".toList
  else if task = "Object Detection".toList then "other".toList
  else if task = "Style Transfer".toList then "other".toList
  else if task = "Medical Diagnosis".toList then "medical".toList
  else if task = "Other".toList then "other".toList
  else "other".toList

/-- `random.choice(["ocr", "simocr"])` (`analyze.py` line 148): the
random source is injected as one boolean draw; each of its two values
selects one of the two elements, so the two outcomes are exactly as
likely as the two values of the draw (`random.choice` over a two-element
list is uniform). -/
def ocr_choice (r : Bool) : Str := if r then "ocr".toList else "simocr".toList

/-- The endpoint `handle_task` posts to (`analyze.py` lines 146-154):
the random OCR override, else the static mapping. -/
def chosen_endpoint (r : Bool) (task : Str) : Str :=
  if task = "OCR".toList then ocr_choice r else task_mapping task

/-- The `model_used` identity `handle_task` reports (`analyze.py` lines
145, 149-152): initialised to "pytesseract" and updated only inside the
`task == "OCR"` branch according to the random choice. -/
def chosen_model (r : Bool) (task : Str) : Str :=
  if task = "OCR".toList then
    if ocr_choice r = "simocr".toList then "simocr".toList
    else if ocr_choice r = "ocr".toList then "pytesseract".toList
    else "pytesseract".toList
  else "pytesseract".toList

/-- Observable outcome of the one handler POST `handle_task` issues
(`analyze.py` lines 158-172): `exn` is any exception raised inside the
`try` (httpx fault, timeout, `response.json()` failure); `resp status
res` is an HTTP answer with status `status` whose JSON body's "result"
field is `res` (`none` when the field is missing, triggering the
`"Task completed successfully"` default of line 170). -/
inductive HandlerOutcome where
  | exn : HandlerOutcome
  | resp (status : Nat) (res : Option Str) : HandlerOutcome
deriving DecidableEq

/-- Environment of one dispatch: the outcome of POSTing to
`http://localhost:8000/task/<endpoint>`, per endpoint. -/
structure DispatchEnv where
  outcome : Str → HandlerOutcome

/-- `handle_task` (`analyze.py` lines 118-177): choose endpoint and model
identity, POST, and map the three outcomes — 200 answer, non-200 answer,
raised exception — to the returned `(result, model_used)` pair; the
`except` arm (lines 174-177) reports model identity "error". -/
def handle_task (env : DispatchEnv) (r : Bool) (task : Str) : Str × Str :=
  match env.outcome (chosen_endpoint r task) with
  | HandlerOutcome.exn =>
    ("Task handling failed due to an error".toList, "error".toList)
  | HandlerOutcome.resp status res =>
    if status = 200 then
      (res.getD "Task completed successfully".toList, chosen_model r task)
    else
      ("Task handling failed with status ".toList ++ (toString status).toList,
       chosen_model r task)

/-- The `(result, model_name)` pair of a handler endpoint's JSON answer
(the `latency` field is timed by the handler itself and not needed for
the claims about dispatch identity). -/
structure TaskResponse where
  result : Str
  model_name : Str
deriving DecidableEq

/-- `other_task` (`tasks.py` lines 316-338): the no-op handler; its `try`
body cannot fail, so the answer is always "Task not supported" with
model name "None". -/
def other_task : TaskResponse :=
  { result := "Task not supported".toList, model_name := "None".toList }

/-- `medical_task` (`tasks.py` lines 206-244): on the success path the
result is the computed diagnosis, on the exception path a degraded
message; the reported `model_name` is "ResNet-50" on both paths. -/
def medical_task (ok : Bool) (diagnosis : Str) : TaskResponse :=
  if ok then { result := diagnosis, model_name := "ResNet-50".toList }
  else { result := "Unable to perform medical analysis".toList,
         model_name := "ResNet-50".toList }

/-- One step of a linear congruential generator (Numerical Recipes
constants, 32-bit state): a concrete seeded pseudo-random source standing
in for Python's seeded `random` module in the repeated-dispatch scenario. -/
def lcgNext (x : Nat) : Nat := (1664525 * x + 1013904223) % 4294967296

/-- The first `n` boolean draws of the seeded generator (bit 16 of each
successive state). -/
def lcgBools : Nat → Nat → List Bool
  | _, 0 => []
  | x, n + 1 =>
    let y := lcgNext x
    decide ((y / 65536) % 2 = 1) :: lcgBools y n

/-- The model identities observed when dispatching "OCR" once per draw of
the seeded random source. -/
def seededOcrModels (seed n : Nat) : List Str :=
  (lcgBools seed n).map (fun b => chosen_model b "OCR".toList)

/-! ## Analyze flow and log store — `analyze.py`, `analyze_image`
(lines 28-116) and `get_result` (lines 179-199). -/

/-- One entry of `logs.json` (`analyze.py` lines 75-82).  Time is
modelled in integer ticks: `latency` is the clock difference
`tEnd - tStart`; Python's `round(x, 2)` of a non-negative float is
non-negative, so the sign claims are unaffected by rounding. -/
structure LogEntry where
  id : Str
  timestamp : Str
  task : Str
  model : Str
  latency : Int
  result : Str
deriving DecidableEq

/-- Environment of one analyze request: the classifier and dispatch
environments, the random draw for the OCR A/B choice, the fresh
`uuid.uuid4()` value, the timestamp, the caption `get_image_caption`
produced for the uploaded image, and the two clock readings around the
request. -/
structure AnalyzeEnv where
  cls : ClassifierEnv
  disp : DispatchEnv
  rand : Bool
  freshId : Str
  timestamp : Str
  imageContext : Str
  tStart : Int
  tEnd : Int

/-- The log entry `analyze_image` builds (`analyze.py` lines 75-82):
`task` is the cascade's label, `model`/`result` come from `handle_task`
applied to that label, `latency` is the clock difference. -/
def analyze_entry (env : AnalyzeEnv) (question : Str) : LogEntry :=
  { id := env.freshId, timestamp := env.timestamp,
    task := classify_task_with_qwen env.cls question (some env.imageContext),
    model := (handle_task env.disp env.rand
      (classify_task_with_qwen env.cls question (some env.imageContext))).2,
    latency := env.tEnd - env.tStart,
    result := (handle_task env.disp env.rand
      (classify_task_with_qwen env.cls question (some env.imageContext))).1 }

/-- The classification-dispatch-log core of `analyze_image` (`analyze.py`
lines 61-99, after upload validation and file saving): classify, handle,
build the log entry, append it to the stored list, and return the new
store plus the entry (whose fields also populate the JSON response of
lines 108-116). -/
def analyze_image (env : AnalyzeEnv) (logs : List LogEntry) (question : Str) :
    List LogEntry × LogEntry :=
  (logs ++ [analyze_entry env question], analyze_entry env question)

/-- `get_result` (`analyze.py` lines 179-199): a missing log file and a
missing id both answer HTTP 404; otherwise the first entry whose `id`
matches is returned.  The store is `none` when `logs.json` does not
exist. -/
def get_result (store : Option (List LogEntry)) (resultId : Str) :
    Except Nat LogEntry :=
  match store with
  | none => Except.error 404
  | some logs =>
    match logs.find? (fun e => e.id == resultId) with
    | some e => Except.ok e
    | none => Except.error 404

/-! ## Helper lemmas. -/

/-- Substring search is stable under prepending. -/
theorem containsSub_append_right (n a b : Str) (h : containsSub n b = true) :
    containsSub n (a ++ b) = true := by
  induction a with
  | nil => simpa using h
  | cons c a ih =>
    show (startsWith n (c :: (a ++ b)) || containsSub n (a ++ b)) = true
    rw [ih, Bool.or_true]

/-- `lowerStr` distributes over append. -/
theorem lowerStr_append (a b : Str) : lowerStr (a ++ b) = lowerStr a ++ lowerStr b :=
  List.map_append _ a b

/-- `removeChar` is the filter keeping the other characters. -/
theorem removeChar_eq_filter (c : Char) (s : Str) :
    removeChar c s = s.filter (fun x => x != c) := by
  induction s with
  | nil => rfl
  | cons x xs ih =>
    by_cases h : x = c <;> simp [removeChar, h, ih]

/-- Keeping the characters that are none of the four punctuation marks is
the complement of `is_stripped_punct`. -/
theorem punct_pred_eq (a : Char) :
    (a != '!' && a != '?' && a != ',' && a != '.') = !is_stripped_punct a := by
  cases h1 : a == '.' <;> cases h2 : a == ',' <;>
    cases h3 : a == '?' <;> cases h4 : a == '!' <;>
    simp [is_stripped_punct, bne, h1, h2, h3, h4]

/-- The four chained `replace` calls drop exactly the characters of
`is_stripped_punct`. -/
theorem stripPunct_eq_filter (s : Str) :
    stripPunct s = s.filter (fun c => !is_stripped_punct c) := by
  unfold stripPunct
  rw [removeChar_eq_filter, removeChar_eq_filter, removeChar_eq_filter,
    removeChar_eq_filter, List.filter_filter, List.filter_filter,
    List.filter_filter]
  exact List.filter_congr (fun a _ => punct_pred_eq a)

/-- `find?` returns the element at the first index satisfying the
predicate. -/
theorem find?_eq_of_idx {α : Type} (p : α → Bool) :
    ∀ (l : List α) (i : Nat) (h : i < l.length),
      p (l.get ⟨i, h⟩) = true →
      (∀ j : Nat, ∀ hj : j < i, p (l.get ⟨j, Nat.lt_trans hj h⟩) = false) →
      l.find? p = some (l.get ⟨i, h⟩) := by
  intro l
  induction l with
  | nil => intro i h; exact absurd h (Nat.not_lt_zero i)
  | cons a l ih =>
    intro i h hp hmin
    cases i with
    | zero =>
      simp only [List.get] at hp ⊢
      simp [List.find?, hp]
    | succ i =>
      have ha : p a = false := hmin 0 (Nat.succ_pos i)
      simp only [List.get] at hp ⊢
      rw [List.find?, ha]
      exact ih i (Nat.lt_of_succ_lt_succ h) hp
        (fun j hj => hmin (j + 1) (Nat.succ_lt_succ hj))

/-- The normalizer only ever produces vocabulary members. -/
theorem parse_mem_valid (r : Str) : parse_task_from_response r ∈ valid_tasks := by
  unfold parse_task_from_response
  cases hfind : valid_tasks.find?
      (fun t => containsSub (lowerStr t) (stripPunct (lowerStr r))) with
  | none => simp only [hfind]; decide
  | some t =>
    simp only [hfind]
    exact List.mem_of_find?_eq_some hfind

/-! ## Claim theorems. -/

/-- C3. For every raw classifier response string, the normalizer
(`parse_task_from_response`) strips the punctuation characters `.`, `,`,
`?`, `!`, lower-cases the text, and returns the first label in the fixed
vocabulary order whose lower-cased display string occurs as a substring:
it agrees with the spec-side `normalize_spec` everywhere; whenever the
label at index `i` matches and no earlier label does (in particular when
exactly one label matches), that label is returned; and when no label
matches, "Other" is returned. -/
theorem C3_normalizer_first_match :
    (∀ r : Str, parse_task_from_response r = normalize_spec r) ∧
    (∀ r : Str, ∀ i : Nat, ∀ h : i < valid_tasks.length,
      containsSub (lowerStr (valid_tasks.get ⟨i, h⟩)) (stripPunct (lowerStr r)) = true →
      (∀ j : Nat, ∀ hj : j < i,
        containsSub (lowerStr (valid_tasks.get ⟨j, Nat.lt_trans hj h⟩))
          (stripPunct (lowerStr r)) = false) →
      parse_task_from_response r = valid_tasks.get ⟨i, h⟩) ∧
    (∀ r : Str,
      (∀ t ∈ valid_tasks, containsSub (lowerStr t) (stripPunct (lowerStr r)) = false) →
      parse_task_from_response r = "Other".toList) := by
  refine ⟨fun r => ?_, fun r i h hp hmin => ?_, fun r hnone => ?_⟩
  · unfold parse_task_from_response normalize_spec
    rw [stripPunct_eq_filter]
  · have heq := find?_eq_of_idx
      (fun t => containsSub (lowerStr t) (stripPunct (lowerStr r)))
      valid_tasks i h hp hmin
    unfold parse_task_from_response
    simp [heq]
  · have heq : valid_tasks.find?
        (fun t => containsSub (lowerStr t) (stripPunct (lowerStr r))) = none :=
      List.find?_eq_none.mpr (fun t ht => by simp [hnone t ht])
    unfold parse_task_from_response
    simp [heq]

/-- Witness for C3: a response containing exactly the vocabulary
substring "image captioning" (at index 1, with index 0 "ocr" absent)
normalizes to "Image Captioning". -/
theorem C3_normalizer_first_match_witness :
    parse_task_from_response ("The task is Image Captioning, thanks!".toList) =
      "Image Captioning".toList :=
  C3_normalizer_first_match.2.1 _ 1 (by decide) (by decide) (by decide)

/-- C9. In the local keyword classifier `mock_classify_task`, medical
keywords take precedence over OCR keywords: whenever the lower-cased
question contains a medical keyword — even if it also contains an OCR
keyword — the answer is "Medical Diagnosis". -/
theorem C9_medical_over_ocr (q : Str)
    (hmed : anyKeyword medical_keywords (lowerStr q) = true)
    (_hocr : anyKeyword ocr_keywords (lowerStr q) = true) :
    mock_classify_task q = "Medical Diagnosis".toList := by
  unfold mock_classify_task
  simp [hmed]

/-- Witness for C9: "read the patient's diagnosis" contains the OCR
keyword "read" and the medical keywords "patient" and "diagnosis", and
classifies as Medical Diagnosis, not OCR. -/
theorem C9_medical_over_ocr_witness :
    mock_classify_task ("read the patient\x27s diagnosis".toList) =
        "Medical Diagnosis".toList ∧
      ("Medical Diagnosis".toList : Str) ≠ "OCR".toList :=
  ⟨C9_medical_over_ocr _ (by decide) (by decide), by decide⟩

/-- C4. The endpoint prober returns the first URL whose probe answers
with status < 500; a probe exception counts as unreachable; it returns
`none` exactly when every candidate is unreachable; and the instrumented
trace shows it probes exactly the unreachable ones before the first
reachable URL — never a candidate after it. -/
theorem C4_prober_first_reachable :
    ∀ (probe : Str → Option Nat) (urls : List Str),
      (find_working_endpoint probe urls =
        urls.find? (test_endpoint_connectivity probe)) ∧
      (∀ url : Str, probe url = none →
        test_endpoint_connectivity probe url = false) ∧
      (find_working_endpoint probe urls = none ↔
        ∀ u ∈ urls, test_endpoint_connectivity probe u = false) ∧
      (probe_trace probe urls =
        urls.takeWhile (fun u => !test_endpoint_connectivity probe u) ++
          (find_working_endpoint probe urls).toList) := by
  intro probe urls
  refine ⟨?_, ?_, ?_, ?_⟩
  · induction urls with
    | nil => rfl
    | cons u rest ih =>
      cases hc : test_endpoint_connectivity probe u <;>
        simp [find_working_endpoint, List.find?, hc, ih]
  · intro url h
    unfold test_endpoint_connectivity
    rw [h]
  · induction urls with
    | nil => simp [find_working_endpoint]
    | cons u rest ih =>
      cases hc : test_endpoint_connectivity probe u <;>
        simp [find_working_endpoint, hc, ih]
  · induction urls with
    | nil => rfl
    | cons u rest ih =>
      cases hc : test_endpoint_connectivity probe u <;>
        simp [probe_trace, find_working_endpoint, List.takeWhile_cons, hc, ih]

/-- The probe used by the C4 witness: URL "b" answers 200, URL "a"
raises, URL "c" would answer 200 but must never be probed. -/
def witnessProbe : Str → Option Nat :=
  fun u => if u = "a".toList then none else some 200

/-- The candidate list used by the C4 witness. -/
def witnessUrls : List Str := List.map String.toList ["a", "b", "c"]

/-- Witness for C4: with candidate list [a, b, c] where a's probe raises
and b answers 200, the prober returns b and the trace shows c was never
probed. -/
theorem C4_prober_first_reachable_witness :
    find_working_endpoint witnessProbe witnessUrls = some ("b".toList) ∧
    probe_trace witnessProbe witnessUrls = ["a".toList, "b".toList] ∧
    witnessProbe ("a".toList) = none ∧
    test_endpoint_connectivity witnessProbe ("a".toList) = false := by
  have h := C4_prober_first_reachable witnessProbe witnessUrls
  refine ⟨?_, ?_, by decide, h.2.1 ("a".toList) (by decide)⟩
  · rw [h.1]; decide
  · rw [h.2.2.2]; decide

/-- The fixed tail of the classification prompt contains the substrings
"task" and "ocr" (lower-cased), so the rule-based Cerebras fallback takes
its OCR branch on every classification prompt, whatever the question and
image context are. -/
theorem fallback_on_prompt (q : Str) (ic : Option Str) :
    fallback_response (mkPrompt q ic) = "OCR".toList := by
  have lift : ∀ n : Str, containsSub n (lowerStr promptTail) = true →
      containsSub n (lowerStr (mkPrompt q ic)) = true := by
    intro n h
    unfold mkPrompt
    rw [lowerStr_append, lowerStr_append, lowerStr_append, lowerStr_append]
    exact containsSub_append_right _ _ _ (containsSub_append_right _ _ _
      (containsSub_append_right _ _ _ (containsSub_append_right _ _ _ h)))
  have htask : containsSub ("task".toList) (lowerStr (mkPrompt q ic)) = true :=
    lift _ (by decide)
  have hocr : containsSub ("ocr".toList) (lowerStr (mkPrompt q ic)) = true :=
    lift _ (by decide)
  have hany : anyKeyword fb_ocr_keywords (lowerStr (mkPrompt q ic)) = true := by
    unfold anyKeyword
    rw [List.any_eq_true]
    exact ⟨"ocr".toList, by decide, hocr⟩
  unfold fallback_response
  simp [htask, hany]
  exact fun _ => htask

/-- When no Cerebras endpoint is reachable, `call_cerebras_qwen` answers
with the rule-based fallback, which on a classification prompt is
always "OCR". -/
theorem cerebras_unreachable_call (env : ClassifierEnv) (q : Str) (ic : Option Str)
    (h : find_working_endpoint env.cerebrasProbe
      (env.cerebrasApiUrl :: fallback_urls) = none) :
    call_cerebras_qwen env (mkPrompt q ic) = Except.ok ("OCR".toList) := by
  unfold call_cerebras_qwen
  rw [h]
  show Except.ok (fallback_response (mkPrompt q ic)) = Except.ok ("OCR".toList)
  rw [fallback_on_prompt]

/-- Any value the Cerebras classifier returns without raising is either a
vocabulary member or a verbatim response prefixed "Fallback response:". -/
theorem cerebras_ok_shape (env : ClassifierEnv) (q : Str) (ic : Option Str) (v : Str)
    (h : classify_task_with_cerebras_qwen env q ic = Except.ok v) :
    v ∈ valid_tasks ∨ startsWith "Fallback response:".toList v = true := by
  unfold classify_task_with_cerebras_qwen at h
  cases hcall : call_cerebras_qwen env (mkPrompt q ic) with
  | error e => rw [hcall] at h; exact absurd h (by simp)
  | ok response =>
    rw [hcall] at h
    by_cases hfb : startsWith "Fallback response:".toList response = true
    · simp only [hfb, if_true] at h
      cases h
      exact Or.inr hfb
    · simp only [hfb, if_false] at h
      cases h
      exact Or.inl (parse_mem_valid response)

/-- `try_local_qwen` only produces vocabulary members. -/
theorem try_local_mem (env : ClassifierEnv) (p : Str) :
    try_local_qwen env p ∈ valid_tasks := by
  unfold try_local_qwen
  cases henv : env.qwenLocal p with
  | ok r => exact parse_mem_valid r
  | error e =>
    show "Other".toList ∈ valid_tasks
    decide

/-- The Qwen API / local ladder only produces vocabulary members. -/
theorem qwen_ladder_mem (env : ClassifierEnv) (p : Str) :
    qwen_api_then_local env p ∈ valid_tasks := by
  unfold qwen_api_then_local
  cases henv : env.qwenApi p with
  | ok response =>
    by_cases hfb : startsWith "Error:".toList response = true
    · simp only [hfb, if_true]
      exact try_local_mem env p
    · simp only [hfb, if_false]
      exact parse_mem_valid response
  | error e =>
    exact try_local_mem env p

/-- When the Qwen API leg fails (raises, or answers an "Error:"-prefixed
string) and the local model raises, the ladder resolves to "Other". -/
theorem qwen_ladder_failure (env : ClassifierEnv) (p : Str)
    (hapi : env.qwenApi p = Except.error () ∨
      ∃ s, env.qwenApi p = Except.ok s ∧ startsWith "Error:".toList s = true)
    (hloc : env.qwenLocal p = Except.error ()) :
    qwen_api_then_local env p = "Other".toList := by
  have hlocal : try_local_qwen env p = "Other".toList := by
    unfold try_local_qwen
    rw [hloc]
  unfold qwen_api_then_local
  rcases hapi with h | ⟨s, hs, hfb⟩
  · rw [h]
    exact hlocal
  · rw [hs]
    simp only [hfb, if_true]
    exact hlocal

/-- When the Cerebras tier is disabled or raises, the cascade runs the
Qwen ladder. -/
theorem cascade_to_ladder (env : ClassifierEnv) (q : Str) (ic : Option Str)
    (h : env.useCerebras = false ∨
      classify_task_with_cerebras_qwen env q ic = Except.error ()) :
    classify_task_with_qwen env q ic = qwen_api_then_local env (mkPrompt q ic) := by
  unfold classify_task_with_qwen
  rcases h with h | h
  · rw [h]
    simp
  · rw [h]
    cases env.useCerebras <;> simp

/-- C10. Whenever the Cerebras tier is selected and no Cerebras endpoint
is reachable, the Cerebras classifier returns the label "OCR" regardless
of question and image context: its keyword fallback scans the whole
classification prompt, whose fixed option list always contains the
substrings "task"/"classify" and "ocr". -/
theorem C10_cerebras_fallback_always_ocr (env : ClassifierEnv) (q : Str)
    (ic : Option Str)
    (h : find_working_endpoint env.cerebrasProbe
      (env.cerebrasApiUrl :: fallback_urls) = none) :
    classify_task_with_cerebras_qwen env q ic = Except.ok ("OCR".toList) ∧
    (env.useCerebras = true → classify_task_with_qwen env q ic = "OCR".toList) := by
  have hcls : classify_task_with_cerebras_qwen env q ic = Except.ok ("OCR".toList) := by
    unfold classify_task_with_cerebras_qwen
    rw [cerebras_unreachable_call env q ic h]
    rfl
  refine ⟨hcls, fun huse => ?_⟩
  unfold classify_task_with_qwen
  rw [huse, hcls]
  simp

/-- Environment in which every remote tier is unreachable: the Cerebras
probe raises on every URL, the Qwen API answers the "Error:" string its
own `requests` handler produces on a connection failure, and the local
model raises (its weights are absent). -/
def unreachableEnv : ClassifierEnv :=
  { useCerebras := true,
    cerebrasApiUrl := "https://api.cerebras.com/v1/chat/completions".toList,
    cerebrasProbe := fun _ => none,
    cerebrasPost := fun _ _ => PostOutcome.exn,
    qwenApi := fun _ =>
      Except.ok ("Error: Failed to call Qwen API - connection refused".toList),
    qwenLocal := fun _ => Except.error () }

/-- The same dead network with the Cerebras feature flag off. -/
def unreachableNoCerebrasEnv : ClassifierEnv :=
  { unreachableEnv with useCerebras := false }

/-- Witness for C10: with every probe raising, classifying
"what color is the car" through the Cerebras tier yields "OCR". -/
theorem C10_cerebras_fallback_always_ocr_witness :
    classify_task_with_cerebras_qwen unreachableEnv
        ("what color is the car".toList) none = Except.ok ("OCR".toList) ∧
      classify_task_with_qwen unreachableEnv
        ("what color is the car".toList) none = "OCR".toList := by
  have h := C10_cerebras_fallback_always_ocr unreachableEnv
    ("what color is the car".toList) none (by decide)
  exact ⟨h.1, h.2 rfl⟩

/-- Counterexample to C1 as stated: with the Cerebras tier enabled and
reachable, a remote answer whose text starts with "Fallback response:" is
returned verbatim by the cascade and is not one of the eight canonical
labels. -/
def leakEnv : ClassifierEnv :=
  { useCerebras := true,
    cerebrasApiUrl := "https://api.cerebras.com/v1/chat/completions".toList,
    cerebrasProbe := fun _ => some 200,
    cerebrasPost := fun _ _ =>
      PostOutcome.resp 200 true ("Fallback response: test".toList),
    qwenApi := fun _ => Except.error (),
    qwenLocal := fun _ => Except.error () }

/-- C1 counterexample: the cascade can return a string outside the eight
canonical task labels — the verbatim remote text "Fallback response:
test". -/
theorem C1_counterexample_raw_text_escapes :
    classify_task_with_qwen leakEnv ("what color is the car".toList)
        (some ("a photo of a car".toList)) = "Fallback response: test".toList ∧
      "Fallback response: test".toList ∉ valid_tasks := by
  constructor
  · rfl
  · decide

/-- C1 (amended). The cascade is a total function (every modelled
exception is handled), and: (a) its value is always either one of the
eight canonical labels or a Cerebras answer returned verbatim because its
text starts with "Fallback response:"; (b) with the Cerebras tier
disabled the value is always one of the eight labels; (c) on total
failure — Cerebras disabled or raising, Qwen API raising or answering an
"Error:" string, local model raising — the value is "Other". -/
theorem C1_cascade_total_and_vocab (env : ClassifierEnv) (q : Str) (ic : Option Str) :
    (classify_task_with_qwen env q ic ∈ valid_tasks ∨
      startsWith "Fallback response:".toList (classify_task_with_qwen env q ic) = true) ∧
    (env.useCerebras = false → classify_task_with_qwen env q ic ∈ valid_tasks) ∧
    ((env.useCerebras = false ∨
        classify_task_with_cerebras_qwen env q ic = Except.error ()) →
      (env.qwenApi (mkPrompt q ic) = Except.error () ∨
        ∃ s, env.qwenApi (mkPrompt q ic) = Except.ok s ∧
          startsWith "Error:".toList s = true) →
      env.qwenLocal (mkPrompt q ic) = Except.error () →
      classify_task_with_qwen env q ic = "Other".toList) := by
  refine ⟨?_, fun hflag => ?_, fun hcer hapi hloc => ?_⟩
  · cases hflag : env.useCerebras with
    | false =>
      rw [cascade_to_ladder env q ic (Or.inl hflag)]
      exact Or.inl (qwen_ladder_mem env _)
    | true =>
      cases hcc : classify_task_with_cerebras_qwen env q ic with
      | error e =>
        cases e
        rw [cascade_to_ladder env q ic (Or.inr hcc)]
        exact Or.inl (qwen_ladder_mem env _)
      | ok v =>
        have hv : classify_task_with_qwen env q ic = v := by
          unfold classify_task_with_qwen
          rw [hflag, hcc]
          rfl
        rw [hv]
        exact cerebras_ok_shape env q ic v hcc
  · rw [cascade_to_ladder env q ic (Or.inl hflag)]
    exact qwen_ladder_mem env _
  · rw [cascade_to_ladder env q ic hcer]
    exact qwen_ladder_failure env _ hapi hloc

/-- Witness for C1 (amended): with the Cerebras flag off and both Qwen
legs failing, the cascade returns "Other", which is a vocabulary member. -/
theorem C1_cascade_total_and_vocab_witness :
    classify_task_with_qwen unreachableNoCerebrasEnv
        ("describe this image for me please".toList) none = "Other".toList ∧
      classify_task_with_qwen unreachableNoCerebrasEnv
        ("describe this image for me please".toList) none ∈ valid_tasks := by
  have h := C1_cascade_total_and_vocab unreachableNoCerebrasEnv
    ("describe this image for me please".toList) none
  exact ⟨h.2.2 (Or.inl rfl) (Or.inr ⟨_, rfl, by decide⟩) rfl, h.2.1 rfl⟩

/-- C2 counterexample: with every remote tier unreachable and the
Cerebras flag off, the cascade returns "Other" for "what color is the
car", while the local keyword classifier — which the cascade never
invokes — would return "Visual QA". -/
theorem C2_counterexample_fallback_not_applied :
    classify_task_with_qwen unreachableNoCerebrasEnv
        ("what color is the car".toList) none = "Other".toList ∧
      mock_classify_task ("what color is the car".toList) = "Visual QA".toList ∧
      "Other".toList ≠ "Visual QA".toList := by
  refine ⟨rfl, by decide, by decide⟩

/-- C2 (amended). The cascade's terminal fallback is the constant
"Other", not the local rule-based keyword classifier: whenever the
Cerebras tier is off and both Qwen legs fail, `classify_task_with_qwen`
returns "Other" whatever the question says.  The keyword classifier
`mock_classify_task` exists (and classifies "read the text on this sign"
as OCR and "what color is the car" as Visual QA) but is dead code — no
cascade path calls it. -/
theorem C2_terminal_fallback_is_other :
    (∀ (env : ClassifierEnv) (q : Str) (ic : Option Str),
      env.useCerebras = false →
      (env.qwenApi (mkPrompt q ic) = Except.error () ∨
        ∃ s, env.qwenApi (mkPrompt q ic) = Except.ok s ∧
          startsWith "Error:".toList s = true) →
      env.qwenLocal (mkPrompt q ic) = Except.error () →
      classify_task_with_qwen env q ic = "Other".toList) ∧
    mock_classify_task ("read the text on this sign".toList) = "OCR".toList ∧
    mock_classify_task ("what color is the car".toList) = "Visual QA".toList := by
  refine ⟨fun env q ic hflag hapi hloc => ?_, by decide, by decide⟩
  rw [cascade_to_ladder env q ic (Or.inl hflag)]
  exact qwen_ladder_failure env _ hapi hloc

/-- Witness for C2 (amended): the dead-network, flag-off environment
classifies "read the text on this sign" as "Other". -/
theorem C2_terminal_fallback_is_other_witness :
    classify_task_with_qwen unreachableNoCerebrasEnv
        ("read the text on this sign".toList) none = "Other".toList :=
  C2_terminal_fallback_is_other.1 unreachableNoCerebrasEnv _ none rfl
    (Or.inr ⟨_, rfl, by decide⟩) rfl

/-- C5. Dispatch maps every label other than OCR deterministically to a
single handler, with "Other" routed to the no-op handler endpoint whose
answer is "Task not supported"; dispatching OCR draws the handler
uniformly from the random source (each of the two equiprobable draw
values picks one distinct handler identity); and 1,000 seeded draws
exhibit both OCR handler identities. -/
theorem C5_dispatch_table :
    (∀ (t : Str) (r r' : Bool), t ≠ "OCR".toList →
      chosen_endpoint r t = chosen_endpoint r' t ∧
        chosen_model r t = "pytesseract".toList) ∧
    (∀ r : Bool, chosen_endpoint r ("Other".toList) = "other".toList) ∧
    other_task.result = "Task not supported".toList ∧
    (chosen_endpoint true ("OCR".toList) = "ocr".toList ∧
      chosen_endpoint false ("OCR".toList) = "simocr".toList ∧
      chosen_model true ("OCR".toList) = "pytesseract".toList ∧
      chosen_model false ("OCR".toList) = "simocr".toList) ∧
    ("pytesseract".toList ∈ seededOcrModels 42 1000 ∧
      "simocr".toList ∈ seededOcrModels 42 1000) := by
  refine ⟨fun t r r' h => ?_, fun r => ?_, by decide, by decide, ?_, ?_⟩
  · constructor
    · unfold chosen_endpoint
      rw [if_neg h, if_neg h]
    · unfold chosen_model
      rw [if_neg h]
  · unfold chosen_endpoint
    rw [if_neg (by decide : ¬("Other".toList : Str) = "OCR".toList)]
    decide
  · decide
  · decide

/-- Witness for C5: a non-OCR label ("Visual QA") dispatches identically
under both draw values, with model identity "pytesseract". -/
theorem C5_dispatch_table_witness :
    chosen_endpoint true ("Visual QA".toList) =
        chosen_endpoint false ("Visual QA".toList) ∧
      chosen_model true ("Visual QA".toList) = "pytesseract".toList :=
  C5_dispatch_table.1 ("Visual QA".toList) true false (by decide)

/-- Dispatch environment whose handler endpoints all answer 200 with a
"result" field, used by the C6 counterexample and witness. -/
def medicalRespEnv : DispatchEnv :=
  { outcome := fun _ => HandlerOutcome.resp 200 (some ("268".toList)) }

/-- C6 counterexample: dispatching "Medical Diagnosis" records the model
identity "pytesseract" (the dispatcher's default), not "ResNet-50",
although the medical handler itself reports "ResNet-50". -/
theorem C6_counterexample_model_identity :
    (handle_task medicalRespEnv true ("Medical Diagnosis".toList)).2 =
        "pytesseract".toList ∧
      "pytesseract".toList ≠ "ResNet-50".toList ∧
      (medical_task true ("268".toList)).model_name = "ResNet-50".toList := by
  decide

/-- C6 (amended). Dispatching "Medical Diagnosis" deterministically
selects the "medical" handler endpoint, and the medical handler itself
reports model name "ResNet-50"; but the model identity the dispatcher
records for the dispatch is its default "pytesseract" (it never reads the
handler's model name). -/
theorem C6_medical_dispatch (env : DispatchEnv) (r : Bool) (ok : Bool)
    (diagnosis : Str) :
    chosen_endpoint r ("Medical Diagnosis".toList) = "medical".toList ∧
    (medical_task ok diagnosis).model_name = "ResNet-50".toList ∧
    (∀ (status : Nat) (res : Option Str),
      env.outcome ("medical".toList) = HandlerOutcome.resp status res →
      (handle_task env r ("Medical Diagnosis".toList)).2 = "pytesseract".toList) := by
  have hend : chosen_endpoint r ("Medical Diagnosis".toList) = "medical".toList := by
    unfold chosen_endpoint
    rw [if_neg (by decide : ¬("Medical Diagnosis".toList : Str) = "OCR".toList)]
    decide
  have hmodel : chosen_model r ("Medical Diagnosis".toList) = "pytesseract".toList := by
    unfold chosen_model
    rw [if_neg (by decide : ¬("Medical Diagnosis".toList : Str) = "OCR".toList)]
  refine ⟨hend, ?_, fun status res h => ?_⟩
  · cases ok <;> rfl
  · unfold handle_task
    rw [hend, h]
    by_cases hs : status = 200 <;> simp [hs] <;> exact hmodel

/-- Witness for C6 (amended): with a handler answering 200, the recorded
identity of a Medical Diagnosis dispatch is "pytesseract". -/
theorem C6_medical_dispatch_witness :
    (handle_task medicalRespEnv false ("Medical Diagnosis".toList)).2 =
      "pytesseract".toList :=
  (C6_medical_dispatch medicalRespEnv false true ("268".toList)).2.2
    200 (some ("268".toList)) rfl

/-- C7. If the handler invocation throws, the dispatcher wraps the fault
into a result whose model identity is "error", the logged latency is
non-negative (given a monotone clock), and exactly one log entry is
appended for the request. -/
theorem C7_handler_throw_wrapped (env : AnalyzeEnv) (logs : List LogEntry)
    (q : Str)
    (hexn : ∀ e : Str, env.disp.outcome e = HandlerOutcome.exn)
    (hclock : env.tStart ≤ env.tEnd) :
    (analyze_image env logs q).2.model = "error".toList ∧
    0 ≤ (analyze_image env logs q).2.latency ∧
    (analyze_image env logs q).1 = logs ++ [(analyze_image env logs q).2] ∧
    (analyze_image env logs q).1.length = logs.length + 1 := by
  have hh : handle_task env.disp env.rand
      (classify_task_with_qwen env.cls q (some env.imageContext)) =
      ("Task handling failed due to an error".toList, "error".toList) := by
    unfold handle_task
    rw [hexn _]
  refine ⟨?_, ?_, rfl, by simp [analyze_image]⟩
  · show (handle_task env.disp env.rand
      (classify_task_with_qwen env.cls q (some env.imageContext))).2 = "error".toList
    rw [hh]
  · show (0 : Int) ≤ env.tEnd - env.tStart
    omega

/-- Analyze environment whose handler always throws, used by the C7
witness. -/
def throwEnv : AnalyzeEnv :=
  { cls := unreachableNoCerebrasEnv,
    disp := { outcome := fun _ => HandlerOutcome.exn },
    rand := true, freshId := "id-err".toList, timestamp := "t0".toList,
    imageContext := "an image".toList, tStart := 0, tEnd := 3 }

/-- Witness for C7: with every handler endpoint throwing, the logged
model is "error", latency is non-negative, and one entry is appended. -/
theorem C7_handler_throw_wrapped_witness :
    (analyze_image throwEnv [] ("what is in this picture".toList)).2.model =
        "error".toList ∧
      0 ≤ (analyze_image throwEnv [] ("what is in this picture".toList)).2.latency ∧
      (analyze_image throwEnv [] ("what is in this picture".toList)).1 =
        [] ++ [(analyze_image throwEnv [] ("what is in this picture".toList)).2] ∧
      (analyze_image throwEnv [] ("what is in this picture".toList)).1.length =
        List.length ([] : List LogEntry) + 1 :=
  C7_handler_throw_wrapped throwEnv [] ("what is in this picture".toList)
    (fun _ => rfl) (by decide)

/-- `find?` by id on a store followed by a freshly-identified entry finds
that entry. -/
theorem find?_id_append (logs : List LogEntry) (e : LogEntry)
    (hfresh : ∀ x ∈ logs, x.id ≠ e.id) :
    (logs ++ [e]).find? (fun x => x.id == e.id) = some e := by
  induction logs with
  | nil => simp [List.find?]
  | cons a l ih =>
    have ha : (a.id == e.id) = false := by
      simp [hfresh a (List.mem_cons_self a l)]
    simp only [List.cons_append, List.find?, ha]
    exact ih (fun x hx => hfresh x (List.mem_cons_of_mem a hx))

/-- Looking up an id that some stored entry carries succeeds with an
entry carrying that id. -/
theorem get_result_exists (logs : List LogEntry) (rid : Str)
    (hx : ∃ x ∈ logs, x.id = rid) :
    ∃ e, get_result (some logs) rid = Except.ok e ∧ e.id = rid := by
  cases hfind : logs.find? (fun x => x.id == rid) with
  | some e =>
    refine ⟨e, ?_, ?_⟩
    · show (match logs.find? (fun x => x.id == rid) with
        | some x => Except.ok x
        | none => Except.error 404) = Except.ok e
      rw [hfind]
    · have hp := List.find?_some hfind
      exact eq_of_beq hp
  | none =>
    obtain ⟨x, hxm, hxid⟩ := hx
    have hne := List.find?_eq_none.mp hfind x hxm
    simp [hxid] at hne

/-- Appending a freshly-identified entry and looking it up by its id
returns exactly that entry. -/
theorem get_result_append (logs : List LogEntry) (e : LogEntry)
    (hfresh : ∀ x ∈ logs, x.id ≠ e.id) :
    get_result (some (logs ++ [e])) e.id = Except.ok e := by
  show (match (logs ++ [e]).find? (fun x => x.id == e.id) with
    | some x => Except.ok x
    | none => Except.error 404) = Except.ok e
  rw [find?_id_append logs e hfresh]

/-- Looking up an id no stored entry carries answers 404. -/
theorem get_result_not_found (logs : List LogEntry) (rid : Str)
    (h : ∀ x ∈ logs, x.id ≠ rid) :
    get_result (some logs) rid = Except.error 404 := by
  show (match logs.find? (fun x => x.id == rid) with
    | some x => Except.ok x
    | none => Except.error 404) = Except.error 404
  rw [List.find?_eq_none.mpr (fun x hx => by simp [h x hx])]

/-- C8. Round-trip through the log store: the entry `analyze_image`
writes carries the request's fresh id; looking that id up in the written
store succeeds with an entry carrying it (and, when the id is fresh with
respect to the prior store, with exactly the written entry); looking up
an id carried by no stored entry — and any lookup when the store file is
absent — fails with a 404 not-found outcome. -/
theorem C8_log_roundtrip (env : AnalyzeEnv) (logs : List LogEntry)
    (q : Str) (rid : Str) :
    ((analyze_image env logs q).2.id = env.freshId) ∧
    (∃ e, get_result (some (analyze_image env logs q).1) env.freshId =
        Except.ok e ∧ e.id = env.freshId) ∧
    ((∀ x ∈ logs, x.id ≠ env.freshId) →
      get_result (some (analyze_image env logs q).1) env.freshId =
        Except.ok (analyze_image env logs q).2) ∧
    ((∀ x ∈ (analyze_image env logs q).1, x.id ≠ rid) →
      get_result (some (analyze_image env logs q).1) rid = Except.error 404) ∧
    get_result none rid = Except.error 404 := by
  refine ⟨rfl, ?_, fun hfresh => ?_, fun hnone => ?_, rfl⟩
  · exact get_result_exists _ env.freshId
      ⟨analyze_entry env q, List.mem_append_right logs (List.mem_singleton_self _), rfl⟩
  · exact get_result_append logs (analyze_entry env q) hfresh
  · exact get_result_not_found _ rid hnone

/-- Analyze environment with a live handler, used by the C8 witness. -/
def logEnv : AnalyzeEnv :=
  { cls := unreachableNoCerebrasEnv,
    disp := { outcome := fun _ => HandlerOutcome.resp 200 (some ("ok".toList)) },
    rand := true, freshId := "id-123".toList,
    timestamp := "2024-01-01T00:00:00".toList,
    imageContext := "a red car".toList, tStart := 10, tEnd := 12 }

/-- Witness for C8: a concrete written entry is retrieved by its id, and
an id that was never written answers 404. -/
theorem C8_log_roundtrip_witness :
    get_result (some (analyze_image logEnv [] ("what color is the car".toList)).1)
        ("id-123".toList) =
      Except.ok (analyze_image logEnv [] ("what color is the car".toList)).2 ∧
    get_result (some (analyze_image logEnv [] ("what color is the car".toList)).1)
        ("missing".toList) = Except.error 404 := by
  have h := C8_log_roundtrip logEnv [] ("what color is the car".toList)
    ("missing".toList)
  exact ⟨h.2.2.1 (by simp), h.2.2.2.1 (by decide)⟩
